import Mathlib

/-!
Verification development for the shopping-system repository
(product catalog with SKU inventory, shopping cart, order checkout,
simple recommendations).

Shallow embedding conventions:
* Database tables are Lean lists of structure values; a row's primary key
  is an explicit `id` field where row identity matters.
* `DecimalField(max_digits=10, decimal_places=2)` monetary amounts are
  modelled as exact integer cents (`Nat`), which is faithful to Python's
  `decimal.Decimal` at 2-digit scale: all arithmetic performed by the
  code on these fields (sums and products by non-negative integers) is
  exact in both representations, and no binary floating point is involved.
* Django ORM calls are modelled by explicit list operations:
  `filter` / `find?` for queries, `map` for row updates, append for
  `objects.create`, `List.filter` with a negated key for `delete()`.
* A Django view that reports a user-visible error via `messages.error`
  and performs no write is modelled as returning the unchanged state
  together with an explicit result value naming that error condition.
-/

namespace ShopSys

/-- `products.models.Product` (products/models.py): the fields the verified
logic reads or writes.  `price` is in cents; `category` holds the id of the
referenced `Category` row (`None` allowed, `on_delete=SET_NULL`);
`stock` is the denormalized total maintained by the inventory signal;
`status` is one of draft / published / out_of_stock / discontinued. -/
structure Product where
  id : Nat
  name : String
  price : Nat
  category : Option Nat
  stock : Nat
  status : String
  view_count : Nat
  sales_count : Nat
  deriving Repr, DecidableEq

/-- `products.models.Inventory` (products/models.py): one SKU row.
`product` is the id of the owning `Product`; `color` / `size` are nullable
foreign keys; `price` is the nullable per-SKU override in cents. -/
structure Inventory where
  id : Nat
  product : Nat
  color : Option Nat
  size : Option Nat
  count : Nat
  price : Option Nat
  is_active : Bool
  deriving Repr, DecidableEq

/-- The slice of the relational store touched by the inventory
consistency engine: the `Product` table and the `Inventory` table. -/
structure CatalogState where
  products : List Product
  inventory_items : List Inventory
  deriving Repr, DecidableEq

/-- `product.inventory_items.aggregate(total=models.Sum('count'))['total'] or 0`
(products/models.py line 624 and products/signals.py line 61): the sum of
`count` over every `Inventory` row of the product — no `is_active` filter —
defaulting to 0 when the product has no rows (`Sum` yields `None`, coerced
to 0 by `or 0`). -/
def inventory_total (invs : List Inventory) (pid : Nat) : Nat :=
  ((invs.filter (fun i => i.product == pid)).map (fun i => i.count)).sum

/-- The `update_product_stock` signal handler registered for `post_save`
and `post_delete` on `Inventory` (products/models.py lines 595-632 and
products/signals.py lines 24-76, identical net effect): recompute the
triggering row's product's `stock` as `inventory_total` and persist it
with `product.save(update_fields=['stock'])` — only the `stock` field of
that one product is written. -/
def update_product_stock (st : CatalogState) (pid : Nat) : CatalogState :=
  { st with
    products := st.products.map (fun p =>
      if p.id == pid then { p with stock := inventory_total st.inventory_items pid }
      else p) }

/-- Saving an `Inventory` row (create when no row with that `id` exists,
update otherwise), followed by the `post_save` firing of
`update_product_stock` with `instance = inv`. -/
def save_inventory (st : CatalogState) (inv : Inventory) : CatalogState :=
  let invs' :=
    if st.inventory_items.any (fun i => i.id == inv.id) then
      st.inventory_items.map (fun i => if i.id == inv.id then inv else i)
    else
      st.inventory_items ++ [inv]
  update_product_stock { st with inventory_items := invs' } inv.product

/-- Deleting an `Inventory` row by id, followed by the `post_delete`
firing of `update_product_stock` with the deleted row as `instance`.
When no row has that id, nothing is deleted and no signal fires. -/
def delete_inventory (st : CatalogState) (iid : Nat) : CatalogState :=
  match st.inventory_items.find? (fun i => i.id == iid) with
  | none => st
  | some row =>
    update_product_stock
      { st with inventory_items := st.inventory_items.filter (fun i => i.id != iid) }
      row.product

/-- Erase the one field the stock signal is allowed to write; two product
rows agree under `clear_stock` exactly when they differ at most in `stock`. -/
def clear_stock (p : Product) : Product := { p with stock := 0 }

/-- Catalog fixture for the C1 witness: one product (stale stock 99) with
one active SKU row of count 3. -/
def c1_state : CatalogState :=
  { products := [⟨1, "A", 10000, none, 99, "published", 0, 0⟩]
    inventory_items := [⟨1, 1, none, none, 3, none, true⟩] }

/-- New SKU row for the C1 witness: count 4 and `is_active = false`, so the
recomputed stock 7 shows that inactive rows are included in the sum. -/
def c1_new_row : Inventory := ⟨2, 1, none, none, 4, none, false⟩

/-- `cart.models.CartItem`, restricted to one user's cart (the claims all
concern a single cart): `product` is the id of the referenced `Product`,
`quantity` the positive count.  Row identity is the `(cart, product)` pair,
so within one cart a row is identified by `product`. -/
structure CartItem where
  product : Nat
  quantity : Nat
  deriving Repr, DecidableEq

/-- `get_object_or_404(Product, id=product_id)` /
`cart_item.product` dereference: look up a product row by id. -/
def find_product (products : List Product) (pid : Nat) : Option Product :=
  products.find? (fun p => p.id == pid)

/-- Outcome of `cart.views.add_to_cart`: `notFound` is the 404 from
`get_object_or_404`; `insufficientStock` is the
`messages.error('库存不足，当前库存: {stock}')` branch carrying the
available count; `added` is the success redirect. -/
inductive AddToCartResult where
  | notFound
  | insufficientStock (available : Nat)
  | added
  deriving Repr, DecidableEq

/-- `cart.views.add_to_cart` (cart/views.py lines 38-74), POST path:
look up the product (404 when absent); reject with the stock message when
`quantity > product.stock`, leaving the cart untouched; otherwise
`CartItem.objects.get_or_create(cart, product, defaults={'quantity': quantity})`
— increment the existing row's quantity when one exists (the
`unique_together ['cart', 'product']` constraint guarantees at most one),
else append a new row with the requested quantity. -/
def add_to_cart (products : List Product) (items : List CartItem) (pid quantity : Nat) :
    List CartItem × AddToCartResult :=
  match find_product products pid with
  | none => (items, .notFound)
  | some product =>
    if product.stock < quantity then
      (items, .insufficientStock product.stock)
    else if items.any (fun it => it.product == pid) then
      (items.map (fun it =>
        if it.product == pid then { it with quantity := it.quantity + quantity } else it),
       .added)
    else
      (items ++ [⟨pid, quantity⟩], .added)

/-- `cart.models.CartItem.total_price` (cart/models.py lines 123-138):
`quantity * product.price`; the `try/except` returns `Decimal('0.00')`
when the product dereference fails, so a dangling reference contributes 0. -/
def cart_item_total_price (products : List Product) (it : CartItem) : Nat :=
  match find_product products it.product with
  | some p => it.quantity * p.price
  | none => 0

/-- `cart.models.Cart.total_price` (cart/models.py lines 42-60): running
`Decimal` accumulation of each item's `total_price` over `self.items.all()`,
starting from `Decimal('0.00')`. -/
def cart_total_price (products : List Product) (items : List CartItem) : Nat :=
  items.foldl (fun acc it => acc + cart_item_total_price products it) 0

/-- `cart.models.Cart.item_count` (cart/models.py lines 67-80): sum of the
quantities of the cart's items (total units, not line count). -/
def cart_item_count (items : List CartItem) : Nat :=
  items.foldl (fun acc it => acc + it.quantity) 0

/-- Catalog fixture for the C4 witness: one published product, stock 5. -/
def c4_products : List Product := [⟨1, "A", 10000, none, 5, "published", 0, 0⟩]

/-- Catalog fixture for the C7 witness: one published product, stock 10. -/
def c7_products : List Product := [⟨1, "A", 10000, none, 10, "published", 0, 0⟩]

/-- Catalog fixture for C10: one published product with stock 5, whose cart
quantity two successive `add_to_cart 5` calls drive to 10 > 5. -/
def c10_products : List Product := [⟨1, "A", 10000, none, 5, "published", 0, 0⟩]

/-- `orders.models.Order` (orders/models.py lines 15-41): the shipping
snapshot, the frozen `total_price` (cents) and the `status` string whose
values come from `ORDER_STATUS_CHOICES`; `status` defaults to `pending`. -/
structure Order where
  id : Nat
  full_name : String
  phone : String
  address : String
  total_price : Nat
  status : String
  deriving Repr, DecidableEq

/-- `orders.models.OrderItem` (orders/models.py lines 43-68): `order` and
`product` are row ids; `price` is the unit price in cents frozen at order
creation. -/
structure OrderItem where
  order : Nat
  product : Nat
  price : Nat
  quantity : Nat
  deriving Repr, DecidableEq

/-- The shipping fields read from `request.POST` by `create_order`;
Python's falsiness test `not full_name or not phone or not address`
is emptiness of these strings. -/
structure Shipping where
  full_name : String
  phone : String
  address : String
  deriving Repr, DecidableEq

/-- The slice of the store touched by checkout, for one user:
`cart = none` models a user with no Cart row (`Cart.objects.filter(...).first()`
returns `None`), `cart = some items` a Cart row owning `items`;
`next_order_id` models the autoincrement primary key of `orders`. -/
structure OrderState where
  products : List Product
  cart : Option (List CartItem)
  orders : List Order
  order_items : List OrderItem
  next_order_id : Nat
  deriving Repr, DecidableEq

/-- Outcome of `orders.views.create_order` (POST path): `emptyCart` is the
`messages.error('购物车为空，无法创建订单！')` branch; `missingField` the
blank-shipping-info branch; `productMissing` an unhandled
`Product.DoesNotExist` raised while computing the cart total (the view has
no `try`/`except` and no transaction, so the request dies with a server
error); `productVanished` the same kind of unhandled error raised later,
inside the OrderItem-creation loop; `ok` the success redirect. -/
inductive CreateOrderResult where
  | emptyCart
  | missingField
  | productMissing
  | productVanished
  | ok (orderId : Nat)
  deriving Repr, DecidableEq

/-- The unit price `item.product.price` used both for the cart total and
for the frozen OrderItem price (orders/views.py lines 21 and 51); the
`getD 0` default is unreachable on the paths where it is used, because a
missing product raises first. -/
def cart_line_price (products : List Product) (it : CartItem) : Nat :=
  ((find_product products it.product).map Product.price).getD 0

/-- `orders.views.create_order` (orders/views.py lines 9-65), POST path:
reject when the user has no cart or an empty cart; compute the total as
`Σ item.product.price * item.quantity` (an unresolvable product reference
raises here, leaving the store untouched); reject blank shipping fields;
otherwise create the Order row (status `pending`, fresh id), create one
OrderItem per cart row copying product, current product price and
quantity, and delete all cart rows.  The Cart row itself persists (`cart`
stays `some`). -/
def create_order (st : OrderState) (ship : Shipping) : OrderState × CreateOrderResult :=
  match st.cart with
  | none => (st, .emptyCart)
  | some items =>
    if items.isEmpty then (st, .emptyCart)
    else if items.any (fun it => (find_product st.products it.product).isNone) then
      (st, .productMissing)
    else
      let total := (items.map (fun it => cart_line_price st.products it * it.quantity)).sum
      if ship.full_name = "" ∨ ship.phone = "" ∨ ship.address = "" then
        (st, .missingField)
      else
        let oid := st.next_order_id
        ({ st with
            cart := some [],
            orders := st.orders ++
              [⟨oid, ship.full_name, ship.phone, ship.address, total, "pending"⟩],
            order_items := st.order_items ++ items.map (fun it =>
              (⟨oid, it.product, cart_line_price st.products it, it.quantity⟩ : OrderItem)),
            next_order_id := oid + 1 }, .ok oid)

/-- The OrderItem-creation loop of `create_order` (orders/views.py lines
47-53) with a concurrent product deletion injected: the product with id
`vanish` is deleted by another request just before iteration `k` of the
loop.  Each `OrderItem.objects.create` commits immediately (the view opens
no transaction), so the helper returns the OrderItems created before the
failure together with the index at which the product dereference raised
(`none` when the loop completed). -/
def race_order_items (products : List Product) (vanish k oid : Nat) :
    List CartItem → Nat → List OrderItem × Option Nat
  | [], _ => ([], none)
  | it :: rest, i =>
    let avail := if k ≤ i then products.filter (fun p => p.id != vanish) else products
    match find_product avail it.product with
    | none => ([], some i)
    | some p =>
      let r := race_order_items products vanish k oid rest (i + 1)
      ((⟨oid, it.product, p.price, it.quantity⟩ : OrderItem) :: r.1, r.2)

/-- `create_order` executed while a concurrent request deletes the product
`vanish` just before iteration `k` of the OrderItem loop.  Validation and
the total run against the intact store (the deletion has not happened
yet).  The Order row is created and committed before the loop.  When the
loop raises at index `i`, everything already committed stays committed —
the Order row and the OrderItems created before `i` — because the view
wraps nothing in a transaction; the cart rows survive except those
cascade-deleted with the vanished product (`on_delete=CASCADE` on
`CartItem.product`), and the deletion of the product row itself has
happened exactly when the loop reached iteration `k`. -/
def create_order_during_product_delete (st : OrderState) (ship : Shipping)
    (vanish k : Nat) : OrderState × CreateOrderResult :=
  match st.cart with
  | none => (st, .emptyCart)
  | some items =>
    if items.isEmpty then (st, .emptyCart)
    else if items.any (fun it => (find_product st.products it.product).isNone) then
      (st, .productMissing)
    else
      let total := (items.map (fun it => cart_line_price st.products it * it.quantity)).sum
      if ship.full_name = "" ∨ ship.phone = "" ∨ ship.address = "" then
        (st, .missingField)
      else
        let oid := st.next_order_id
        let order : Order := ⟨oid, ship.full_name, ship.phone, ship.address, total, "pending"⟩
        let r := race_order_items st.products vanish k oid items 0
        match r.2 with
        | some i =>
          ({ products := if k ≤ i then st.products.filter (fun p => p.id != vanish)
                         else st.products,
             cart := some (if k ≤ i then items.filter (fun it => it.product != vanish)
                           else items),
             orders := st.orders ++ [order],
             order_items := st.order_items ++ r.1,
             next_order_id := oid + 1 }, .productVanished)
        | none =>
          ({ products := if k ≤ items.length then st.products.filter (fun p => p.id != vanish)
                         else st.products,
             cart := some [],
             orders := st.orders ++ [order],
             order_items := st.order_items ++ r.1,
             next_order_id := oid + 1 }, .ok oid)

/-- The first components of `ORDER_STATUS_CHOICES` (orders/models.py lines
7-13): the five storable status values. -/
def order_status_values : List String :=
  ["pending", "paid", "shipped", "delivered", "cancelled"]

/-- Outcome of `orders.views.update_order_status`: `notFound` the 404 from
`get_object_or_404`; `updated` the success message; `invalidStatus` the
`messages.error('无效的订单状态！')` branch; `attributeError` an unhandled
`AttributeError` escaping the view — the request dies with a server error
and nothing is written. -/
inductive UpdateStatusResult where
  | notFound
  | updated
  | invalidStatus
  | attributeError
  deriving Repr, DecidableEq

/-- Result of the Python attribute lookup `Order.ORDER_STATUS_CHOICES`
performed at orders/views.py line 94.  The class body of `Order`
(orders/models.py lines 15-41) binds only the model fields (`user`,
`full_name`, `phone`, `address`, `total_price`, `status`, `created_at`,
`updated_at`), `Meta` and methods; `ORDER_STATUS_CHOICES` is bound only
at module level (orders/models.py line 7) and nothing anywhere assigns it
onto the class (Django's model metaclass does not either).  The lookup
therefore finds no such attribute and raises `AttributeError`. -/
def order_class_has_status_choices : Bool := false

/-- `orders.views.update_order_status` (orders/views.py lines 89-101),
POST path: look up the order (404 when absent), then evaluate
`[s[0] for s in Order.ORDER_STATUS_CHOICES]`.  Because
`order_class_has_status_choices` is false, this attribute access raises
`AttributeError` before the membership test, so the view crashes with a
server error on every POST: no status value is ever stored and neither
message branch is ever reached.  The two guarded branches transcribe the
view's lines 94-99 — store any requested status that is a member of the
five-value taxonomy, report the invalid-status message otherwise — and
are provably dead code. -/
def update_order_status (orders : List Order) (oid : Nat) (new_status : String) :
    List Order × UpdateStatusResult :=
  match orders.find? (fun o => o.id == oid) with
  | none => (orders, .notFound)
  | some _ =>
    if order_class_has_status_choices then
      if new_status ∈ order_status_values then
        (orders.map (fun o => if o.id == oid then { o with status := new_status } else o),
         .updated)
      else
        (orders, .invalidStatus)
    else
      (orders, .attributeError)

/-- The order-status transition diagram stated by the spec
(pending→paid→shipped→delivered, and pending/paid→cancelled), written
from the spec's words to classify the requested transitions in the
status-update theorem; the code never consults any such relation. -/
def spec_valid_transition (a b : String) : Bool :=
  (a == "pending" && b == "paid") || (a == "paid" && b == "shipped")
    || (a == "shipped" && b == "delivered")
    || ((a == "pending" || a == "paid") && b == "cancelled")

/-- Store fixture for C2: two products, a cart holding one unit of product
1 and two units of product 2, no orders yet. -/
def c2_state : OrderState :=
  { products := [⟨1, "A", 10000, none, 9, "published", 0, 0⟩,
                 ⟨2, "B", 5000, none, 9, "published", 0, 0⟩]
    cart := some [⟨1, 1⟩, ⟨2, 2⟩]
    orders := []
    order_items := []
    next_order_id := 1 }

/-- Shipping info fixture for C2 and C6. -/
def c2_ship : Shipping := ⟨"N", "13800000000", "Addr"⟩

/-- Store fixture for C8: the user's Cart row exists but owns no items. -/
def c8_state : OrderState :=
  { products := [⟨1, "A", 10000, none, 9, "published", 0, 0⟩]
    cart := some []
    orders := []
    order_items := []
    next_order_id := 1 }

/-- Order fixture for C3: a delivered order. -/
def c3_delivered : Order := ⟨1, "N", "13800000000", "Addr", 10000, "delivered"⟩

/-- Order fixture for the C3 witness: a pending order. -/
def c3_pending : Order := ⟨2, "N", "13800000000", "Addr", 10000, "pending"⟩

/-- The ranking key `order_by('-sales_count', '-view_count')` used by every
recommendation query (recommendations/algorithms.py): `p` sorts no later
than `q` when `p` has strictly more sales, or equal sales and at least as
many views. -/
def rank_le (p q : Product) : Bool :=
  decide (q.sales_count < p.sales_count)
    || (p.sales_count == q.sales_count && decide (q.view_count ≤ p.view_count))

/-- A query's `ORDER BY` on (-sales_count, -view_count): stable sort of the
selected rows by `rank_le`. -/
def rank_products (l : List Product) : List Product := l.mergeSort rank_le

/-- `Product.objects.filter(status='published')`. -/
def published_products (products : List Product) : List Product :=
  products.filter (fun p => p.status == "published")

/-- `SimpleRecommender.recommend_hot_products` (algorithms.py lines
126-140): the published products ranked by (sales desc, views desc),
truncated to `limit`. -/
def recommend_hot_products (products : List Product) (limit : Nat) : List Product :=
  (rank_products (published_products products)).take limit

/-- The `category_ids = list(set(...))` of
`recommend_based_on_cart` (algorithms.py lines 67-76): the distinct ids of
the non-null categories of the cart items' products.  Only membership in
this list is ever used (a SQL `IN`), so the arbitrary iteration order of
the Python `set` is irrelevant and a `dedup` is faithful. -/
def cart_category_ids (products : List Product) (items : List CartItem) : List Nat :=
  (items.filterMap (fun it => (find_product products it.product).bind Product.category)).dedup

/-- `cart_product_ids = [item.product.id for item in cart_items]`
(algorithms.py line 79). -/
def cart_product_ids (items : List CartItem) : List Nat :=
  items.map (fun it => it.product)

/-- The `category_id__in=category_ids` condition of the similar-products
query: the product has a category and it is one of the cart's categories
(SQL `NULL IN (...)` is never true). -/
def in_cart_categories (products : List Product) (items : List CartItem)
    (p : Product) : Bool :=
  match p.category with
  | some c => (cart_category_ids products items).contains c
  | none => false

/-- The `similar_products` query of `recommend_based_on_cart`
(algorithms.py lines 81-98; the duplicated inner query is identical and
its `except` arm unreachable): published products of the cart's
categories, excluding products already in the cart, ranked by the usual
key and truncated at `limit*2`. -/
def similar_products (products : List Product) (items : List CartItem)
    (limit : Nat) : List Product :=
  (rank_products (products.filter (fun p =>
    p.status == "published"
      && in_cart_categories products items p
      && !((cart_product_ids items).contains p.id)))).take (limit * 2)

/-- `SimpleRecommender._combine_recommendations` (algorithms.py lines
193-215): when the found list is short of `limit`, fetch that many hot
products, append those whose id is not already present (the
`existing_ids` snapshot is taken once, before padding), and truncate to
`limit`. -/
def combine_recommendations (products : List Product) (found : List Product)
    (limit : Nat) : List Product :=
  if found.length < limit then
    (found ++ (recommend_hot_products products (limit - found.length)).filter
        (fun p => !((found.map (fun q => q.id)).contains p.id))).take limit
  else found.take limit

/-- `SimpleRecommender.recommend_based_on_cart` (algorithms.py lines
52-112): hot products for an empty cart or a cart whose products have no
categories; otherwise the similar-products list, returned directly when
it reaches `limit` and padded through `combine_recommendations` when
short. -/
def recommend_based_on_cart (products : List Product) (items : List CartItem)
    (limit : Nat) : List Product :=
  if items.isEmpty then recommend_hot_products products limit
  else if (cart_category_ids products items).isEmpty then
    recommend_hot_products products limit
  else if limit ≤ (similar_products products items limit).length then
    (similar_products products items limit).take limit
  else
    combine_recommendations products (similar_products products items limit) limit

/-- `SimpleRecommender.recommend_for_user` (algorithms.py lines 25-50).
`user_cart = none` models an anonymous user; `some none` an authenticated
user with no Cart row (`Cart.DoesNotExist`); `some (some items)` an
authenticated user whose Cart owns `items`.  The empty-cart branch is
`recommend_based_on_history`, which just returns the hot products. -/
def recommend_for_user (products : List Product)
    (user_cart : Option (Option (List CartItem))) (limit : Nat) : List Product :=
  match user_cart with
  | none => recommend_hot_products products limit
  | some none => recommend_hot_products products limit
  | some (some items) =>
    if 0 < items.length then recommend_based_on_cart products items limit
    else recommend_hot_products products limit

/-- Catalog fixture for the C9 witness: product 1 (category 10) is in the
cart; product 2 shares its category; product 3 is published in another
category; product 4 is a draft and must never be recommended. -/
def c9_products : List Product :=
  [⟨1, "A", 10000, some 10, 5, "published", 5, 5⟩,
   ⟨2, "B", 5000, some 10, 5, "published", 3, 7⟩,
   ⟨3, "C", 2000, some 20, 5, "published", 9, 1⟩,
   ⟨4, "D", 1000, some 10, 5, "draft", 0, 99⟩]

end ShopSys

namespace ShopSys

/-- Mapping the per-row quantity increment over a cart commutes with
restricting to the incremented product's rows. -/
theorem filter_map_increment (pid q : Nat) (l : List CartItem) :
    (l.map (fun it =>
        if it.product == pid then { it with quantity := it.quantity + q } else it)).filter
      (fun it => it.product == pid)
      = (l.filter (fun it => it.product == pid)).map
          (fun it => { it with quantity := it.quantity + q }) := by
  induction l with
  | nil => rfl
  | cons hd tl ih =>
    by_cases h : (hd.product == pid) = true
    · simp only [List.map_cons, List.filter_cons, h, if_true]
      rw [ih]
    · have h' : (hd.product == pid) = false := by
        revert h; cases hd.product == pid <;> simp
      simp only [List.map_cons, List.filter_cons, h', Bool.false_eq_true, if_false]
      exact ih

/-- C4: when the requested quantity exceeds the product's stock,
`add_to_cart` fails with the insufficient-stock condition carrying the
available count and the cart's item rows are returned unchanged. -/
theorem add_to_cart_insufficient_stock
    (products : List Product) (items : List CartItem) (pid quantity : Nat) (p : Product)
    (hp : find_product products pid = some p) (hq : p.stock < quantity) :
    add_to_cart products items pid quantity = (items, .insufficientStock p.stock) := by
  simp only [add_to_cart, hp, if_pos hq]

/-- Witness for C4, the spec's own example: stock 5, requested quantity 6
⇒ `insufficientStock 5` and no CartItem created. -/
theorem add_to_cart_insufficient_stock_witness :
    find_product c4_products 1 = some (⟨1, "A", 10000, none, 5, "published", 0, 0⟩ : Product)
    ∧ (5 : Nat) < 6
    ∧ add_to_cart c4_products [] 1 6 = ([], .insufficientStock 5) :=
  ⟨by decide, by decide,
    add_to_cart_insufficient_stock c4_products [] 1 6
      ⟨1, "A", 10000, none, 5, "published", 0, 0⟩ (by decide) (by decide)⟩

/-- C5: `total_price` of a cart equals the sum over its items of
`quantity * product.price` (a dangling product reference contributing 0,
exactly as the code's defensive `except` branch does), computed exactly in
integer cents — no binary floating point enters the model, matching the
code's use of `Decimal` throughout; the empty cart totals 0; and on the
spec's example cart (price 100.00 × qty 2, price 50.00 × qty 1) the total
is 250.00 with `item_count` 3. -/
theorem cart_total_price_spec (products : List Product) (items : List CartItem) :
    cart_total_price products items
        = (items.map (fun it =>
            it.quantity * ((find_product products it.product).map Product.price).getD 0)).sum
    ∧ cart_total_price products [] = 0
    ∧ cart_total_price
        [⟨1, "A", 10000, none, 5, "published", 0, 0⟩,
         ⟨2, "B", 5000, none, 5, "published", 0, 0⟩]
        [⟨1, 2⟩, ⟨2, 1⟩] = 25000
    ∧ cart_item_count [⟨1, 2⟩, ⟨2, 1⟩] = 3 := by
  refine ⟨?_, rfl, by decide, by decide⟩
  have hfold : cart_total_price products items
      = (items.map (cart_item_total_price products)).sum := by
    rw [List.sum_eq_foldl, List.foldl_map]
    rfl
  rw [hfold]
  congr 1
  refine List.map_congr_left ?_
  intro it _
  cases hf : find_product products it.product with
  | none => simp [cart_item_total_price, hf]
  | some p => simp [cart_item_total_price, hf]

/-- C7: starting from a cart with no row for the product, two successful
`add_to_cart` calls (each requested quantity within stock) leave exactly
one CartItem row for that product, whose quantity is the sum of the two
calls' quantities — the second call incremented the row instead of
creating a duplicate. -/
theorem add_to_cart_twice_single_row
    (products : List Product) (items : List CartItem) (pid q1 q2 : Nat) (p : Product)
    (hp : find_product products pid = some p)
    (h0 : items.filter (fun it => it.product == pid) = [])
    (hq1 : q1 ≤ p.stock) (hq2 : q2 ≤ p.stock) :
    (add_to_cart products items pid q1).2 = .added
    ∧ (add_to_cart products (add_to_cart products items pid q1).1 pid q2).2 = .added
    ∧ (add_to_cart products (add_to_cart products items pid q1).1 pid q2).1.filter
        (fun it => it.product == pid) = [⟨pid, q1 + q2⟩] := by
  have hnot1 : ¬ p.stock < q1 := not_lt.mpr hq1
  have hnot2 : ¬ p.stock < q2 := not_lt.mpr hq2
  have hany : items.any (fun it => it.product == pid) = false := by
    rw [List.any_eq_false]
    intro x hx
    exact (List.filter_eq_nil_iff.mp h0) x hx
  have h1 : add_to_cart products items pid q1 = (items ++ [⟨pid, q1⟩], .added) := by
    simp only [add_to_cart, hp, if_neg hnot1, hany, Bool.false_eq_true, if_false]
  have hany2 : ((items ++ [⟨pid, q1⟩] : List CartItem)).any
      (fun it => it.product == pid) = true := by
    simp
  have h2 : add_to_cart products (items ++ [⟨pid, q1⟩]) pid q2
      = ((items ++ [(⟨pid, q1⟩ : CartItem)]).map (fun it =>
          if it.product == pid then { it with quantity := it.quantity + q2 } else it),
         .added) := by
    simp only [add_to_cart, hp, if_neg hnot2, hany2, if_true]
  rw [h1]
  refine ⟨rfl, ?_, ?_⟩
  · rw [h2]
  · rw [h2]
    rw [filter_map_increment, List.filter_append, h0]
    simp [Nat.add_assoc]

/-- Witness for C7: product with stock 10, adding quantities 2 then 3
yields the single row `⟨1, 5⟩`. -/
theorem add_to_cart_twice_single_row_witness :
    find_product c7_products 1 = some (⟨1, "A", 10000, none, 10, "published", 0, 0⟩ : Product)
    ∧ ((2 : Nat) ≤ 10 ∧ (3 : Nat) ≤ 10)
    ∧ (add_to_cart c7_products (add_to_cart c7_products [] 1 2).1 1 3).1.filter
        (fun it => it.product == 1) = [⟨1, 5⟩] :=
  ⟨by decide, by decide,
    (add_to_cart_twice_single_row c7_products [] 1 2 3
      ⟨1, "A", 10000, none, 10, "published", 0, 0⟩
      (by decide) rfl (by decide) (by decide)).2.2⟩

/-- C10: when a CartItem row for the product already exists (with quantity
`qe`), `add_to_cart` validates only the newly requested quantity `q`
against the product's stock — the call succeeds whenever `q ≤ stock` and
the row's quantity becomes `qe + q`; concretely, with stock 5, adding 5
twice succeeds and leaves quantity 10 > 5. -/
theorem add_to_cart_validates_only_new_quantity
    (products : List Product) (items : List CartItem) (pid q qe : Nat) (p : Product)
    (hp : find_product products pid = some p)
    (hq : q ≤ p.stock)
    (hex : items.filter (fun it => it.product == pid) = [⟨pid, qe⟩]) :
    (add_to_cart products items pid q).2 = .added
    ∧ (add_to_cart products items pid q).1.filter (fun it => it.product == pid)
        = [⟨pid, qe + q⟩]
    ∧ ((add_to_cart c10_products (add_to_cart c10_products [] 1 5).1 1 5).1 = [⟨1, 10⟩]
        ∧ (find_product c10_products 1).map Product.stock = some 5
        ∧ (5 : Nat) < 10) := by
  have hnot : ¬ p.stock < q := not_lt.mpr hq
  have hx : (⟨pid, qe⟩ : CartItem) ∈ items.filter (fun it => it.product == pid) := by
    rw [hex]; exact List.mem_singleton.mpr rfl
  have hany : items.any (fun it => it.product == pid) = true := by
    rw [List.any_eq_true]
    exact ⟨⟨pid, qe⟩, (List.mem_filter.mp hx).1, (List.mem_filter.mp hx).2⟩
  have h1 : add_to_cart products items pid q
      = (items.map (fun it =>
          if it.product == pid then { it with quantity := it.quantity + q } else it),
         .added) := by
    simp only [add_to_cart, hp, if_neg hnot, hany, if_true]
  rw [h1]
  refine ⟨rfl, ?_, by decide, by decide, by decide⟩
  rw [filter_map_increment, hex]
  rfl

/-- Witness for C10: stock 5, existing row quantity 3, adding 4 (≤ 5)
succeeds and the row becomes quantity 7, already above the stock of 5. -/
theorem add_to_cart_validates_only_new_quantity_witness :
    find_product c10_products 1 = some (⟨1, "A", 10000, none, 5, "published", 0, 0⟩ : Product)
    ∧ (4 : Nat) ≤ 5
    ∧ (add_to_cart c10_products [⟨1, 3⟩] 1 4).1.filter (fun it => it.product == 1)
        = [⟨1, 7⟩] :=
  ⟨by decide, by decide,
    (add_to_cart_validates_only_new_quantity c10_products [⟨1, 3⟩] 1 4 3
      ⟨1, "A", 10000, none, 5, "published", 0, 0⟩
      (by decide) (by decide) (by decide)).2.1⟩

end ShopSys

namespace ShopSys

/-- Behaviour of one firing of the `update_product_stock` signal handler:
the targeted product's `stock` becomes the inventory sum, no field other
than `stock` of any product is written, and every other product row is
untouched. -/
theorem update_stock_spec (st : CatalogState) (pid : Nat) :
    (∀ p ∈ (update_product_stock st pid).products, p.id = pid →
        p.stock = inventory_total st.inventory_items pid)
    ∧ (update_product_stock st pid).products.map clear_stock
        = st.products.map clear_stock
    ∧ ∀ p ∈ (update_product_stock st pid).products, p.id ≠ pid → p ∈ st.products := by
  refine ⟨?_, ?_, ?_⟩
  · intro p hp hid
    simp only [update_product_stock, List.mem_map] at hp
    obtain ⟨q, hq, rfl⟩ := hp
    by_cases h : q.id = pid
    · simp [h]
    · simp only [beq_iff_eq, if_neg h] at hid ⊢
      exact absurd hid h
  · simp only [update_product_stock, List.map_map]
    refine List.map_congr_left ?_
    intro q hq
    by_cases h : q.id = pid
    · simp [clear_stock, h]
    · simp [clear_stock, h]
  · intro p hp hid
    simp only [update_product_stock, List.mem_map] at hp
    obtain ⟨q, hq, rfl⟩ := hp
    by_cases h : q.id = pid
    · exfalso
      simp only [beq_iff_eq, if_pos h] at hid
      exact hid h
    · simpa [beq_iff_eq, if_neg h] using hq

/-- C1: immediately after any Inventory row of a product P is created,
updated (`save_inventory`, covering both `post_save` cases) or deleted
(`delete_inventory`), P's `stock` equals the sum of `count` over all of
P's Inventory rows in the resulting state — inactive rows included, the
empty sum being 0 — and the recomputation persists only the `stock` field
(all products agree with the prior state under `clear_stock`, and products
other than P are completely unchanged). -/
theorem stock_consistent_after_inventory_write
    (st : CatalogState) (inv : Inventory) (iid : Nat) (row : Inventory)
    (hrow : st.inventory_items.find? (fun i => i.id == iid) = some row) :
    (∀ p ∈ (save_inventory st inv).products, p.id = inv.product →
        p.stock = inventory_total (save_inventory st inv).inventory_items inv.product)
    ∧ (save_inventory st inv).products.map clear_stock = st.products.map clear_stock
    ∧ (∀ p ∈ (save_inventory st inv).products, p.id ≠ inv.product → p ∈ st.products)
    ∧ (∀ p ∈ (delete_inventory st iid).products, p.id = row.product →
        p.stock = inventory_total (delete_inventory st iid).inventory_items row.product)
    ∧ (delete_inventory st iid).products.map clear_stock = st.products.map clear_stock
    ∧ (∀ p ∈ (delete_inventory st iid).products, p.id ≠ row.product → p ∈ st.products) := by
  have hs := update_stock_spec
    { st with inventory_items :=
        if st.inventory_items.any (fun i => i.id == inv.id) then
          st.inventory_items.map (fun i => if i.id == inv.id then inv else i)
        else st.inventory_items ++ [inv] } inv.product
  have hd := update_stock_spec
    { st with inventory_items := st.inventory_items.filter (fun i => i.id != iid) }
    row.product
  have hdel : delete_inventory st iid = update_product_stock
      { st with inventory_items := st.inventory_items.filter (fun i => i.id != iid) }
      row.product := by
    simp only [delete_inventory, hrow]
  refine ⟨hs.1, hs.2.1, hs.2.2, ?_, ?_, ?_⟩
  · rw [hdel]; exact hd.1
  · rw [hdel]; exact hd.2.1
  · rw [hdel]; exact hd.2.2

/-- Witness for C1 at the concrete fixture: the deletable row exists, and
after creating the inactive SKU row the product row carries stock 7 = 3 + 4,
which equals the inventory sum of the resulting state. -/
theorem stock_consistent_after_inventory_write_witness :
    (c1_state.inventory_items.find? (fun i => i.id == 1)
        = some (⟨1, 1, none, none, 3, none, true⟩ : Inventory))
    ∧ (⟨1, "A", 10000, none, 7, "published", 0, 0⟩ : Product)
        ∈ (save_inventory c1_state c1_new_row).products
    ∧ (⟨1, "A", 10000, none, 7, "published", 0, 0⟩ : Product).stock
        = inventory_total (save_inventory c1_state c1_new_row).inventory_items 1 :=
  ⟨by decide, by decide,
    (stock_consistent_after_inventory_write c1_state c1_new_row 1
      ⟨1, 1, none, none, 3, none, true⟩ (by decide)).1 _ (by decide) rfl⟩

end ShopSys

namespace ShopSys

/-- C8: when the user has no Cart row, or a Cart row with no items,
`create_order` fails with the empty-cart condition and the store is
completely unchanged — in particular no Order row is created. -/
theorem create_order_requires_nonempty_cart (st : OrderState) (ship : Shipping)
    (h : st.cart = none ∨ st.cart = some []) :
    create_order st ship = (st, .emptyCart) := by
  rcases h with h | h
  · simp only [create_order, h]
  · simp only [create_order, h, List.isEmpty_nil, if_true]

/-- Witness for C8: a user whose Cart row exists but owns no items;
checkout reports the empty-cart error and creates nothing. -/
theorem create_order_requires_nonempty_cart_witness :
    (c8_state.cart = none ∨ c8_state.cart = some [])
    ∧ create_order c8_state c2_ship = (c8_state, .emptyCart) :=
  ⟨Or.inr rfl, create_order_requires_nonempty_cart c8_state c2_ship (Or.inr rfl)⟩

/-- C6: on a successful checkout of a non-empty cart whose product
references all resolve and whose shipping fields are non-blank,
`create_order` creates exactly one Order whose `total_price` is
`Σ product.price * quantity` over the current cart rows with status
`pending`, creates one OrderItem per cart row copying product id, current
product price and quantity, deletes every cart row while the Cart row
itself persists (`cart` is still `some`), and leaves the product table
untouched. -/
theorem create_order_success_spec
    (st : OrderState) (ship : Shipping) (items : List CartItem)
    (hc : st.cart = some items) (hne : items ≠ [])
    (hall : ∀ it ∈ items, (find_product st.products it.product).isSome = true)
    (hship : ¬(ship.full_name = "" ∨ ship.phone = "" ∨ ship.address = "")) :
    (create_order st ship).2 = .ok st.next_order_id
    ∧ (create_order st ship).1.cart = some []
    ∧ (create_order st ship).1.orders = st.orders ++
        [⟨st.next_order_id, ship.full_name, ship.phone, ship.address,
          (items.map (fun it => cart_line_price st.products it * it.quantity)).sum,
          "pending"⟩]
    ∧ (create_order st ship).1.order_items = st.order_items ++ items.map (fun it =>
        (⟨st.next_order_id, it.product, cart_line_price st.products it,
          it.quantity⟩ : OrderItem))
    ∧ (create_order st ship).1.products = st.products := by
  have hee : items.isEmpty = false := by
    cases items with
    | nil => exact absurd rfl hne
    | cons a l => rfl
  have hanyN : (items.any fun it => (find_product st.products it.product).isNone)
      = false := by
    rw [List.any_eq_false]
    intro x hx
    have h := hall x hx
    cases hopt : find_product st.products x.product with
    | none => rw [hopt] at h; simp at h
    | some p => simp [hopt]
  refine ⟨?_, ?_, ?_, ?_, ?_⟩ <;>
    simp only [create_order, hc, hee, hanyN, Bool.false_eq_true, if_false,
      if_neg hship]

/-- Witness for C6 at the concrete fixture: the cart with one unit of the
100.00 product and two units of the 50.00 product checks out to a single
pending Order of 200.00 and an emptied cart. -/
theorem create_order_success_spec_witness :
    c2_state.cart = some [⟨1, 1⟩, ⟨2, 2⟩]
    ∧ (create_order c2_state c2_ship).2 = .ok 1
    ∧ (create_order c2_state c2_ship).1.cart = some [] :=
  ⟨rfl,
    (create_order_success_spec c2_state c2_ship [⟨1, 1⟩, ⟨2, 2⟩]
      rfl (by decide) (by decide) (by decide)).1,
    (create_order_success_spec c2_state c2_ship [⟨1, 1⟩, ⟨2, 2⟩]
      rfl (by decide) (by decide) (by decide)).2.1⟩

/-- C2 (code bug): `create_order` is not atomic.  With the cart
`[1 unit of product 1, 2 units of product 2]`, a concurrent deletion of
product 2 arriving just before iteration 1 of the OrderItem loop makes
the loop raise — yet the Order row (total 200.00) and the first OrderItem
remain committed, and the cart's item set has changed (the vanished
product's row was cascade-deleted), contradicting the claimed full
rollback; the failure surfaces as an unhandled exception, not as any
handled order-creation error. -/
theorem create_order_not_atomic_on_midloop_failure :
    (create_order_during_product_delete c2_state c2_ship 2 1).2 = .productVanished
    ∧ (create_order_during_product_delete c2_state c2_ship 2 1).1.orders
        = [⟨1, "N", "13800000000", "Addr", 20000, "pending"⟩]
    ∧ (create_order_during_product_delete c2_state c2_ship 2 1).1.order_items
        = [⟨1, 1, 10000, 1⟩]
    ∧ (create_order_during_product_delete c2_state c2_ship 2 1).1.cart
        = some [⟨1, 1⟩]
    ∧ c2_state.cart = some [⟨1, 1⟩, ⟨2, 2⟩]
    ∧ c2_state.orders = [] := by
  refine ⟨by decide, by decide, by decide, by decide, by decide, by decide⟩

/-- C3 (code bug): every POST to `update_order_status` dies with an
unhandled `AttributeError` raised by the `Order.ORDER_STATUS_CHOICES`
lookup, before any status check.  Evaluated at the failing input — a
delivered order with requested target `pending`, which lies outside the
spec's transition diagram — the stored status is indeed left unchanged,
but the outcome is the server error, never the invalid-status report the
claim requires; the in-diagram transition pending→paid and the
out-of-taxonomy target `refunded` crash identically, so the view can
neither perform a valid transition nor reject an invalid one. -/
theorem update_order_status_attribute_error :
    order_class_has_status_choices = false
    ∧ update_order_status [c3_delivered] 1 "pending" = ([c3_delivered], .attributeError)
    ∧ spec_valid_transition "delivered" "pending" = false
    ∧ (update_order_status [c3_delivered] 1 "pending").2 ≠ .invalidStatus
    ∧ update_order_status [c3_pending] 2 "paid" = ([c3_pending], .attributeError)
    ∧ spec_valid_transition "pending" "paid" = true
    ∧ update_order_status [c3_pending] 2 "refunded" = ([c3_pending], .attributeError) := by
  refine ⟨rfl, by decide, by decide, by decide, by decide, by decide, by decide⟩

end ShopSys

namespace ShopSys

/-- The ranking key is transitive. -/
theorem rank_le_trans (a b c : Product) (hab : rank_le a b = true)
    (hbc : rank_le b c = true) : rank_le a c = true := by
  simp only [rank_le, Bool.or_eq_true, Bool.and_eq_true, decide_eq_true_eq,
    beq_iff_eq] at hab hbc ⊢
  omega

/-- The ranking key is total. -/
theorem rank_le_total (a b : Product) : (rank_le a b || rank_le b a) = true := by
  simp only [rank_le, Bool.or_eq_true, Bool.and_eq_true, decide_eq_true_eq, beq_iff_eq]
  omega

/-- Sorting by the ranking key permutes, hence preserves membership. -/
theorem mem_rank_products {p : Product} {l : List Product} :
    p ∈ rank_products l ↔ p ∈ l :=
  (List.mergeSort_perm l rank_le).mem_iff

/-- The ranked list is sorted by the ranking key. -/
theorem rank_products_sorted (l : List Product) :
    List.Pairwise (fun p q => rank_le p q = true) (rank_products l) :=
  List.sorted_mergeSort rank_le_trans rank_le_total l

/-- Hot products are published. -/
theorem mem_hot_published {products : List Product} {limit : Nat} {p : Product}
    (h : p ∈ recommend_hot_products products limit) : p.status = "published" := by
  have h1 : p ∈ rank_products (published_products products) := List.take_subset _ _ h
  have h2 : p ∈ published_products products := mem_rank_products.mp h1
  have h3 := (List.mem_filter.mp h2).2
  simpa using h3

/-- A shorter hot-products list is contained in a longer one. -/
theorem mem_hot_mono {products : List Product} {n m : Nat} (h : n ≤ m) :
    ∀ p ∈ recommend_hot_products products n, p ∈ recommend_hot_products products m := by
  intro p hp
  have he : (recommend_hot_products products m).take n
      = recommend_hot_products products n := by
    simp only [recommend_hot_products, List.take_take]
    rw [min_eq_left h]
  rw [← he] at hp
  exact List.take_subset _ _ hp

/-- Membership in the similar-products query yields the three selection
conditions: published, in a cart category, not already in the cart. -/
theorem mem_similar {products : List Product} {items : List CartItem} {limit : Nat}
    {p : Product} (h : p ∈ similar_products products items limit) :
    p.status = "published" ∧ in_cart_categories products items p = true
      ∧ p.id ∉ cart_product_ids items := by
  have h1 := List.take_subset _ _ h
  have h2 := mem_rank_products.mp h1
  have h3 := (List.mem_filter.mp h2).2
  simp only [Bool.and_eq_true, Bool.not_eq_true'] at h3
  obtain ⟨⟨hs, hc⟩, hn⟩ := h3
  refine ⟨by simpa using hs, hc, ?_⟩
  intro hmem
  have hct : (cart_product_ids items).contains p.id = true := by simpa using hmem
  rw [hct] at hn
  cases hn

/-- The similar-products list is sorted by the ranking key. -/
theorem similar_sorted (products : List Product) (items : List CartItem) (limit : Nat) :
    List.Pairwise (fun p q => rank_le p q = true)
      (similar_products products items limit) :=
  List.Pairwise.sublist (List.take_sublist _ _) (rank_products_sorted _)

/-- C9: for an authenticated user with a non-empty cart, the recommender
returns at most `limit` products, all published, and the returned list
splits into a first part that is sorted by (sales desc, views desc) and
consists of products from the cart's categories not already in the cart,
followed by padding drawn from the globally popular published products;
for an anonymous user, or a user with no cart, it returns the published
catalog ranked by the same key and truncated to `limit` directly. -/
theorem recommend_for_user_spec
    (products : List Product) (items : List CartItem) (limit : Nat)
    (hne : items ≠ []) :
    (recommend_for_user products (some (some items)) limit).length ≤ limit
    ∧ (∀ p ∈ recommend_for_user products (some (some items)) limit,
        p.status = "published")
    ∧ (∃ a b, recommend_for_user products (some (some items)) limit = a ++ b
        ∧ List.Pairwise (fun p q => rank_le p q = true) a
        ∧ (∀ p ∈ a, in_cart_categories products items p = true
            ∧ p.id ∉ cart_product_ids items)
        ∧ (∀ p ∈ b, p ∈ recommend_hot_products products limit))
    ∧ recommend_for_user products none limit
        = (rank_products (published_products products)).take limit
    ∧ recommend_for_user products (some none) limit
        = (rank_products (published_products products)).take limit := by
  have hlen : 0 < items.length := List.length_pos.mpr hne
  have hee : items.isEmpty = false := by
    cases items with
    | nil => exact absurd rfl hne
    | cons a l => rfl
  have hru : recommend_for_user products (some (some items)) limit
      = recommend_based_on_cart products items limit := by
    simp only [recommend_for_user, if_pos hlen]
  have main : (recommend_based_on_cart products items limit).length ≤ limit
      ∧ (∀ p ∈ recommend_based_on_cart products items limit, p.status = "published")
      ∧ (∃ a b, recommend_based_on_cart products items limit = a ++ b
          ∧ List.Pairwise (fun p q => rank_le p q = true) a
          ∧ (∀ p ∈ a, in_cart_categories products items p = true
              ∧ p.id ∉ cart_product_ids items)
          ∧ (∀ p ∈ b, p ∈ recommend_hot_products products limit)) := by
    by_cases hcat : (cart_category_ids products items).isEmpty = true
    · have hr : recommend_based_on_cart products items limit
          = recommend_hot_products products limit := by
        simp only [recommend_based_on_cart, hee, Bool.false_eq_true, if_false,
          hcat, if_true]
      rw [hr]
      refine ⟨List.length_take_le _ _, fun p hp => mem_hot_published hp,
        [], recommend_hot_products products limit, rfl, List.Pairwise.nil,
        ?_, fun p hp => hp⟩
      intro p hp
      exact absurd hp (List.not_mem_nil p)
    · have hcat' : (cart_category_ids products items).isEmpty = false := by
        revert hcat; cases (cart_category_ids products items).isEmpty <;> simp
      by_cases hfull : limit ≤ (similar_products products items limit).length
      · have hr : recommend_based_on_cart products items limit
            = (similar_products products items limit).take limit := by
          simp only [recommend_based_on_cart, hee, Bool.false_eq_true, if_false,
            hcat', if_pos hfull]
        rw [hr]
        refine ⟨List.length_take_le _ _, ?_,
          (similar_products products items limit).take limit, [],
          (List.append_nil _).symm,
          List.Pairwise.sublist (List.take_sublist _ _) (similar_sorted _ _ _),
          ?_, ?_⟩
        · intro p hp
          exact (mem_similar (List.take_subset _ _ hp)).1
        · intro p hp
          have h := mem_similar (List.take_subset _ _ hp)
          exact ⟨h.2.1, h.2.2⟩
        · intro p hp
          exact absurd hp (List.not_mem_nil p)
      · have hlt : (similar_products products items limit).length < limit :=
          not_le.mp hfull
        have hr : recommend_based_on_cart products items limit
            = ((similar_products products items limit)
                ++ (recommend_hot_products products
                      (limit - (similar_products products items limit).length)).filter
                    (fun p => !(((similar_products products items limit).map
                        (fun q => q.id)).contains p.id))).take limit := by
          simp only [recommend_based_on_cart, hee, Bool.false_eq_true, if_false,
            hcat', if_neg hfull, combine_recommendations, if_pos hlt]
        have hsplit : ((similar_products products items limit)
              ++ (recommend_hot_products products
                    (limit - (similar_products products items limit).length)).filter
                  (fun p => !(((similar_products products items limit).map
                      (fun q => q.id)).contains p.id))).take limit
            = (similar_products products items limit)
              ++ ((recommend_hot_products products
                    (limit - (similar_products products items limit).length)).filter
                  (fun p => !(((similar_products products items limit).map
                      (fun q => q.id)).contains p.id))).take
                  (limit - (similar_products products items limit).length) := by
          rw [List.take_append_eq_append_take,
            List.take_of_length_le (le_of_lt hlt)]
        refine ⟨?_, ?_, ?_⟩
        · rw [hr]
          exact List.length_take_le _ _
        · rw [hr, hsplit]
          intro p hp
          rcases List.mem_append.mp hp with hp | hp
          · exact (mem_similar hp).1
          · have h1 := List.take_subset _ _ hp
            have h2 := (List.mem_filter.mp h1).1
            exact mem_hot_published h2
        · refine ⟨similar_products products items limit,
            ((recommend_hot_products products
                (limit - (similar_products products items limit).length)).filter
              (fun p => !(((similar_products products items limit).map
                  (fun q => q.id)).contains p.id))).take
              (limit - (similar_products products items limit).length),
            by rw [hr, hsplit], similar_sorted _ _ _, ?_, ?_⟩
          · intro p hp
            have h := mem_similar hp
            exact ⟨h.2.1, h.2.2⟩
          · intro p hp
            have h1 := List.take_subset _ _ hp
            have h2 := (List.mem_filter.mp h1).1
            exact mem_hot_mono (Nat.sub_le _ _) p h2
  rw [hru]
  exact ⟨main.1, main.2.1, main.2.2, rfl, rfl⟩

/-- Witness for C9 at the concrete fixture: the cart holding product 1 is
non-empty and the recommendation list respects the limit of 3. -/
theorem recommend_for_user_spec_witness :
    ([⟨1, 2⟩] : List CartItem) ≠ []
    ∧ (recommend_for_user c9_products (some (some [⟨1, 2⟩])) 3).length ≤ 3 :=
  ⟨by decide, (recommend_for_user_spec c9_products [⟨1, 2⟩] 3 (by decide)).1⟩

end ShopSys
